import Mathlib

/- Verification development for the LankaSat Live frontend.
   Shallow embedding of the auth/session, view-lock, layer-registry,
   tile-URL, date-selection, panel-refresh, search-debounce and
   registration-form logic, translated from the repository source
   (src/frontend/src). JS objects become structures with Option fields
   where the source can leave a field undefined; browser storage becomes
   explicit state passing; async fetch outcomes become an Except argument. -/

namespace LankaSat

/-- The stored user profile object, as produced by the backend auth
endpoints and persisted in browser storage (services/auth.js,
context/AuthContext.jsx). Only the role field is inspected by the logic
under verification; the other fields are carried for fidelity. -/
structure User where
  id : String
  email : String
  display_name : Option String
  role : String
deriving Repr, DecidableEq

namespace Ctx

/-- AuthContext.jsx line 120: isAuthenticated is the Boolean coercion of
the user object (!!user). -/
def isAuthenticated (user : Option User) : Bool :=
  user.isSome

/-- AuthContext.jsx line 121: isGuest tests whether the optional user has
role equal to the string guest; when user is null the optional chain
yields undefined, which is not equal to that string. -/
def isGuest (user : Option User) : Bool :=
  match user with
  | none => false
  | some u => u.role == "guest"

/-- App.jsx line 80: isSatelliteMapLocked = !isAuthenticated || isGuest. -/
def isSatelliteMapLocked (user : Option User) : Bool :=
  !isAuthenticated user || isGuest user

/-- The three session states named by the View-Lock Coordinator. -/
inductive SessionState where
  | ANONYMOUS
  | GUEST
  | REGISTERED
deriving Repr, DecidableEq

/-- Session-state classification of the stored user: no user is ANONYMOUS,
a user whose role field is the string guest is GUEST, any other user is
REGISTERED. -/
def sessionState (user : Option User) : SessionState :=
  match user with
  | none => .ANONYMOUS
  | some u => if u.role == "guest" then .GUEST else .REGISTERED

end Ctx

/-- One legend entry of a layer: a color hex string and a label
(services/layers.js). -/
structure LegendItem where
  color : String
  label : String
deriving Repr, DecidableEq

/-- A layer descriptor object from LAYER_CONFIG (services/layers.js).
Fields are Option because the JS fallback object in App.jsx line 72 has
none of them (they read as undefined); every real registry entry has all
fields present. -/
structure LayerDescriptor where
  id : Option String
  name : Option String
  description : Option String
  category : Option String
  legend : Option (List LegendItem)
deriving Repr, DecidableEq

/-- The static layer registry, translated entry by entry from
services/layers.js lines 5-90. -/
def LAYER_CONFIG : List (String × LayerDescriptor) :=
  [ ("S1_VV",
     { id := some "S1_VV", name := some "Sentinel-1 VV",
       description := some "Radar VV polarization",
       category := some "radar",
       legend := some
         [ { color := "#000000", label := "Low backscatter" },
           { color := "#666666", label := "Medium backscatter" },
           { color := "#ffffff", label := "High backscatter" } ] }),
    ("S1_VH",
     { id := some "S1_VH", name := some "Sentinel-1 VH",
       description := some "Radar VH polarization",
       category := some "radar",
       legend := some
         [ { color := "#000000", label := "Low backscatter" },
           { color := "#666666", label := "Medium backscatter" },
           { color := "#ffffff", label := "High backscatter" } ] }),
    ("S1_FLOOD",
     { id := some "S1_FLOOD", name := some "Flood Detection",
       description := some "Enhanced VV+VH for flood visualization",
       category := some "radar",
       legend := some
         [ { color := "#000066", label := "Potential water/flood" },
           { color := "#663300", label := "Land" },
           { color := "#999999", label := "Urban/structures" } ] }),
    ("S2_TRUE_COLOR",
     { id := some "S2_TRUE_COLOR", name := some "True Color",
       description := some "Natural color RGB - Shows actual appearance",
       category := some "optical",
       legend := some
         [ { color := "#228B22", label := "Healthy vegetation" },
           { color := "#8B4513", label := "Muddy/sediment water" },
           { color := "#CD853F", label := "Flooded areas (brown)" },
           { color := "#4682B4", label := "Clear water" },
           { color := "#D2B48C", label := "Wet soil / saturated" },
           { color := "#808080", label := "Urban / built-up" },
           { color := "#FFFFFF", label := "Clouds" } ] }),
    ("S2_FALSE_COLOR",
     { id := some "S2_FALSE_COLOR", name := some "False Color",
       description := some "Vegetation highlighting",
       category := some "optical",
       legend := some
         [ { color := "#ff0000", label := "Healthy vegetation" },
           { color := "#00ff00", label := "Stressed vegetation" },
           { color := "#0000ff", label := "Water" } ] }),
    ("S2_NDVI",
     { id := some "S2_NDVI", name := some "NDVI",
       description := some "Vegetation index",
       category := some "index",
       legend := some
         [ { color := "#cc3333", label := "No vegetation (< 0)" },
           { color := "#e6cc66", label := "Sparse (0-0.2)" },
           { color := "#cce666", label := "Light (0.2-0.4)" },
           { color := "#66cc33", label := "Moderate (0.4-0.6)" },
           { color := "#1a8033", label := "Dense (> 0.6)" } ] }),
    ("S2_NDWI",
     { id := some "S2_NDWI", name := some "NDWI",
       description := some "Water detection index",
       category := some "index",
       legend := some
         [ { color := "#1a4de6", label := "Water (> 0.3)" },
           { color := "#4d80e6", label := "Wet (0.1-0.3)" },
           { color := "#8099b3", label := "Moist (0-0.1)" },
           { color := "#998066", label := "Dry (< 0)" } ] }) ]

/-- The empty-object fallback of App.jsx line 72: a JS object with no
own fields, so every descriptor field reads as undefined. -/
def emptyLayerConfig : LayerDescriptor :=
  { id := none, name := none, description := none, category := none,
    legend := none }

/-- The descriptor-shaped view of the Object.prototype member read at a
property name, since the LAYER_CONFIG object literal inherits the
prototype chain: the builtin methods are functions whose name field is
the property name; constructor reads the Object constructor function,
named Object; the proto accessor reads the Object.prototype object,
which has no name field. Every such member is truthy, none has a legend
field, and any other name reads as undefined. -/
def objectPrototypeMember (id : String) : Option LayerDescriptor :=
  if id = "constructor" then
    some { emptyLayerConfig with name := some "Object" }
  else if id = "__proto__" then
    some emptyLayerConfig
  else if id ∈ ["hasOwnProperty", "isPrototypeOf", "propertyIsEnumerable",
      "toLocaleString", "toString", "valueOf", "__defineGetter__",
      "__defineSetter__", "__lookupGetter__", "__lookupSetter__"] then
    some { emptyLayerConfig with name := some id }
  else none

/-- JS property access LAYER_CONFIG[id]: own properties first, then the
prototype chain inherited from Object.prototype; undefined only when
neither yields a value. -/
def lookupLayer (id : String) : Option LayerDescriptor :=
  match (LAYER_CONFIG.find? (fun p => p.1 == id)).map Prod.snd with
  | some d => some d
  | none => objectPrototypeMember id

/-- App.jsx line 72: currentLayerConfig = LAYER_CONFIG[selectedLayer]
with the empty object as fallback under the JS or-else operator: every
value the property access can produce, own descriptor or inherited
member, is truthy, so the fallback applies exactly to undefined. -/
def currentLayerConfig (selectedLayer : String) : LayerDescriptor :=
  (lookupLayer selectedLayer).getD emptyLayerConfig

/-- C1: the view-lock predicate isSatelliteMapLocked is true exactly on
the ANONYMOUS and GUEST session states, false exactly on REGISTERED, and
equals the disjunction of not-authenticated with is-guest. -/
theorem C1_view_lock_characterisation (user : Option User) :
    (Ctx.isSatelliteMapLocked user = true ↔
      Ctx.sessionState user = .ANONYMOUS ∨ Ctx.sessionState user = .GUEST) ∧
    (Ctx.isSatelliteMapLocked user = false ↔
      Ctx.sessionState user = .REGISTERED) ∧
    Ctx.isSatelliteMapLocked user
      = (!Ctx.isAuthenticated user || Ctx.isGuest user) := by
  rcases user with _ | u
  · simp [Ctx.isSatelliteMapLocked, Ctx.sessionState, Ctx.isAuthenticated,
      Ctx.isGuest]
  · by_cases h : u.role == "guest" <;>
      simp [Ctx.isSatelliteMapLocked, Ctx.sessionState, Ctx.isAuthenticated,
        Ctx.isGuest, h]

/-- C8 counterexample: toString is not a registry key, yet the property
access finds the inherited Object.prototype.toString function, which is
truthy, so the or-else fallback is skipped and the resulting descriptor
is not the empty one: its name field is the nonempty toString. -/
theorem C8_counterexample_prototype_member :
    (∀ p ∈ LAYER_CONFIG, p.1 ≠ "toString") ∧
    currentLayerConfig "toString" ≠ emptyLayerConfig ∧
    (currentLayerConfig "toString").name = some "toString" := by
  refine ⟨by decide, by decide, by decide⟩

/-- C8 amended: the lookup is total, so it never throws, and for every
layer id that is neither a registry key nor a property inherited from
Object.prototype, the lookup with fallback returns the defined empty
descriptor with no name and no legend; an id matching an inherited
Object.prototype property instead yields that inherited member, not the
empty fallback. -/
theorem C8_unknown_layer_fallback (id : String)
    (h : ∀ p ∈ LAYER_CONFIG, p.1 ≠ id)
    (hp : objectPrototypeMember id = none) :
    (currentLayerConfig id = emptyLayerConfig ∧
      emptyLayerConfig.name = none ∧ emptyLayerConfig.legend = none) ∧
    (∀ id2 v, (∀ p ∈ LAYER_CONFIG, p.1 ≠ id2) →
      objectPrototypeMember id2 = some v → currentLayerConfig id2 = v) := by
  have hfind : ∀ id3, (∀ p ∈ LAYER_CONFIG, p.1 ≠ id3) →
      LAYER_CONFIG.find? (fun p => p.1 == id3) = none := by
    intro id3 h3
    rw [List.find?_eq_none]
    intro p hp3
    simpa using h3 p hp3
  refine ⟨⟨?_, rfl, rfl⟩, ?_⟩
  · simp [currentLayerConfig, lookupLayer, hfind id h, hp]
  · intro id2 v h2 hv
    simp [currentLayerConfig, lookupLayer, hfind id2 h2, hv]

/-- Witness for C8 amended at the concrete unknown id UNKNOWN_LAYER,
which is neither a registry key nor an Object.prototype property. -/
theorem C8_unknown_layer_fallback_witness :
    currentLayerConfig "UNKNOWN_LAYER" = emptyLayerConfig ∧
    emptyLayerConfig.name = none ∧ emptyLayerConfig.legend = none :=
  (C8_unknown_layer_fallback "UNKNOWN_LAYER" (by decide) (by decide)).1

namespace AuthSvc

/-- JS truthiness of an optional string: null/undefined and the empty
string are falsy, everything else truthy. -/
def truthy (s : Option String) : Bool :=
  match s with
  | none => false
  | some t => t != ""

/-- Browser-persisted session storage behind the two keys lankasat_token
and lankasat_user (services/auth.js lines 12-13). The user slot is kept
at the object level: JSON.stringify on write paired with JSON.parse on
read is treated as the identity (the raw-string view, with an arbitrary
parse behavior, is modelled separately for getUser). -/
structure Storage where
  token : Option String
  user : Option User
deriving Repr, DecidableEq

/-- services/auth.js storeAuth (lines 44-47): writes both keys. -/
def storeAuth (tok : String) (u : User) : Storage :=
  { token := some tok, user := some u }

/-- services/auth.js clearAuth (lines 52-55): removes both keys. -/
def clearAuth : Storage :=
  { token := none, user := none }

/-- services/auth.js isAuthenticated (lines 61-63): Boolean coercion of
the stored token string. -/
def isAuthenticated (st : Storage) : Bool :=
  truthy st.token

/-- services/auth.js getUser (lines 27-37), over the raw stored string:
when the key is absent or holds the (falsy) empty string the function
returns null without parsing; otherwise the external JSON.parse builtin
runs inside try/catch and a thrown parse error becomes null. The builtin
is a parameter so the result is verified for every parse behavior. -/
def getUser (parse : String → Except String User) (stored : Option String) :
    Option User :=
  match stored with
  | none => none
  | some s =>
      if s = "" then none
      else
        match parse s with
        | .ok u => some u
        | .error _ => none

/-- Body of a successful auth response: access_token and user
(services/auth.js, /auth/register /auth/login /auth/guest). -/
structure AuthData where
  access_token : String
  user : User
deriving Repr, DecidableEq

/-- An HTTP response as observed by the auth service: ok with the parsed
body, or not-ok with a status code and an optional error detail field. -/
inductive AuthResp where
  | ok (data : AuthData)
  | err (status : Nat) (detail : Option String)
deriving Repr, DecidableEq

/-- The registered auth listeners (services/auth.js line 214), modelled
by callback identifiers. -/
abbrev Listeners := List Nat

/-- services/auth.js onAuthStateChange (lines 221-225): adds the
callback to the listener set. -/
def onAuthStateChange (ls : Listeners) (cb : Nat) : Listeners :=
  cb :: ls

/-- services/auth.js notifyAuthChange (lines 231-233): calls every
registered listener with the user payload; modelled as the list of
deliveries it performs. -/
def notifyAuthChange (ls : Listeners) (payload : Option User) :
    List (Nat × Option User) :=
  ls.map (fun cb => (cb, payload))

/-- Observable effect of one auth-mutating service call: the storage
afterwards, the listener notifications delivered during the call, and
the JS return value or thrown message. -/
structure CallResult where
  storage : Storage
  delivered : List (Nat × Option User)
  outcome : Except String AuthData
deriving Repr

/-- services/auth.js registerUser (lines 98-119): a not-ok response
throws detail (default Registration failed); on success storeAuth runs
and the data is returned. The body contains no call to notifyAuthChange,
so no notification is delivered. -/
def registerUser (st : Storage) (_ls : Listeners) (resp : AuthResp) :
    CallResult :=
  match resp with
  | .err _ detail =>
      { storage := st, delivered := [],
        outcome := .error (detail.getD "Registration failed") }
  | .ok data =>
      { storage := storeAuth data.access_token data.user,
        delivered := [], outcome := .ok data }

/-- services/auth.js loginUser (lines 127-147): same shape as
registerUser with default detail Login failed; no notifyAuthChange call. -/
def loginUser (st : Storage) (_ls : Listeners) (resp : AuthResp) :
    CallResult :=
  match resp with
  | .err _ detail =>
      { storage := st, delivered := [],
        outcome := .error (detail.getD "Login failed") }
  | .ok data =>
      { storage := storeAuth data.access_token data.user,
        delivered := [], outcome := .ok data }

/-- services/auth.js guestLogin (lines 154-170): same shape with default
detail Guest login failed; no notifyAuthChange call. -/
def guestLogin (st : Storage) (_ls : Listeners) (resp : AuthResp) :
    CallResult :=
  match resp with
  | .err _ detail =>
      { storage := st, delivered := [],
        outcome := .error (detail.getD "Guest login failed") }
  | .ok data =>
      { storage := storeAuth data.access_token data.user,
        delivered := [], outcome := .ok data }

/-- A response of the /auth/me session-validation call. -/
inductive MeResp where
  | ok (u : User)
  | err (status : Nat) (detail : Option String)
deriving Repr, DecidableEq

/-- services/auth.js getCurrentUser (lines 177-197): with a falsy token
it throws Not authenticated before any request; on a 401 it clears the
stored session and throws Session expired; on any other not-ok response
it throws the detail without touching storage; on ok it returns the
fresh user. -/
def getCurrentUser (st : Storage) (resp : MeResp) :
    Storage × Except String User :=
  if truthy st.token = false then (st, .error "Not authenticated")
  else
    match resp with
    | .ok u => (st, .ok u)
    | .err status detail =>
        if status == 401 then (clearAuth, .error "Session expired")
        else (st, .error (detail.getD "Failed to get user info"))

/-- services/auth.js logout (lines 203-205): clearAuth, a purely
client-driven operation. -/
def logout (_st : Storage) : Storage :=
  clearAuth

/-- The service calls that consult the server, tagged with the response
the server gave. -/
inductive ServerCall where
  | register (resp : AuthResp)
  | login (resp : AuthResp)
  | guest (resp : AuthResp)
  | me (resp : MeResp)
deriving Repr, DecidableEq

/-- Storage after one server-consulting call. -/
def serverStep (st : Storage) (c : ServerCall) : Storage :=
  match c with
  | .register r => (registerUser st [] r).storage
  | .login r => (loginUser st [] r).storage
  | .guest r => (guestLogin st [] r).storage
  | .me r => (getCurrentUser st r).1

end AuthSvc

namespace DateSel

/-- Milliseconds in a day, the divisor of DateSlider.jsx line 13. -/
def dayMs : Int := 86400000

/-- Epoch milliseconds of 2017-01-01T00:00:00Z, the minDate bound of
DateSlider.jsx line 9. Dates are epoch-millisecond values throughout. -/
def minDateMs : Int := 1483228800000

/-- App.jsx lines 62-64: handleDateChange stores the incoming date in
the selectedDate state unchanged; the handler performs no clamping and
no normalization. -/
def handleDateChange (d : Int) : Int := d

/-- The bounded date domain [2017-01-01, today], where now is the
epoch-millisecond value of today (maxDate, DateSlider.jsx line 10). -/
abbrev inRange (now d : Int) : Prop := minDateMs ≤ d ∧ d ≤ now

/-- Clamping to the nearest bound of [minDate, now]. Modelled from the
spec: the source has no clamping operation on the selection state; this
is the operation the spec asserts the setter applies to out-of-range
dates. -/
def clampToRange (now d : Int) : Int := max minDateMs (min now d)

/-- DateSlider.jsx line 13: totalDays = floor((maxDate - minDate) /
dayMs), a whole number of days when today is not before minDate. -/
def totalDays (now : Int) : Nat := (now - minDateMs).toNat / 86400000

/-- DateSlider.jsx lines 16-21: sliderToDate. The range input has step
0.1 over [0, 100]; its value is represented here in tenths (v tenths
stands for the JS value v / 10), so days = floor((value / 100) *
totalDays) = (v * totalDays) / 1000 rounded down, and day addition is
whole-day UTC arithmetic. -/
def sliderToDate (now : Int) (v : Nat) : Int :=
  minDateMs + ((v * totalDays now / 1000 : Nat) : Int) * dayMs

/-- A concrete value for today used in closed statements: 1000 days
after the minimum date (a day in late 2019). -/
def nowEx : Int := minDateMs + 1000 * dayMs

end DateSel

/-- C3 counterexample: the date one day before the lower bound is stored
unchanged by handleDateChange, remains out of the bounded domain, and
differs from the clamp to the nearest bound, so out-of-range dates are
not clamped by the setter. -/
theorem C3_counterexample_no_clamp :
    DateSel.handleDateChange (DateSel.minDateMs - DateSel.dayMs)
        = DateSel.minDateMs - DateSel.dayMs ∧
    ¬ DateSel.inRange DateSel.nowEx
        (DateSel.handleDateChange (DateSel.minDateMs - DateSel.dayMs)) ∧
    DateSel.handleDateChange (DateSel.minDateMs - DateSel.dayMs)
        ≠ DateSel.clampToRange DateSel.nowEx
            (DateSel.minDateMs - DateSel.dayMs) := by
  refine ⟨rfl, ?_, ?_⟩ <;> decide

/-- C3 amended: handleDateChange stores every date unchanged (so dates
already inside [2017-01-01, today] round-trip exactly and stay in
range), and the slider control only ever produces in-range dates, which
is the sole range enforcement on the slider path. -/
theorem C3_setDate_identity_and_slider_range
    (now d : Int) (v : Nat) (hnow : DateSel.minDateMs ≤ now)
    (hv : v ≤ 1000) :
    DateSel.handleDateChange d = d ∧
    (DateSel.inRange now d → DateSel.inRange now (DateSel.handleDateChange d)) ∧
    DateSel.inRange now (DateSel.sliderToDate now v) := by
  refine ⟨rfl, fun h => h, ?_, ?_⟩
  · have h0 : (0 : Int)
        ≤ ((v * DateSel.totalDays now / 1000 : Nat) : Int) * DateSel.dayMs := by
      have h1 : (0 : Int) ≤ ((v * DateSel.totalDays now / 1000 : Nat) : Int) :=
        Int.ofNat_nonneg _
      have h2 : (0 : Int) ≤ DateSel.dayMs := by decide
      exact mul_nonneg h1 h2
    unfold DateSel.sliderToDate
    linarith
  · have hq : v * DateSel.totalDays now / 1000 ≤ DateSel.totalDays now := by
      calc v * DateSel.totalDays now / 1000
            ≤ 1000 * DateSel.totalDays now / 1000 :=
              Nat.div_le_div_right (Nat.mul_le_mul_right _ hv)
        _ = DateSel.totalDays now :=
              Nat.mul_div_cancel_left _ (by norm_num)
    have hT : DateSel.totalDays now * 86400000 ≤ (now - DateSel.minDateMs).toNat :=
      Nat.div_mul_le_self _ _
    have h1 : ((DateSel.totalDays now * 86400000 : Nat) : Int)
        ≤ now - DateSel.minDateMs := by
      have h2 := Int.ofNat_le.mpr hT
      rwa [Int.toNat_of_nonneg
        (by linarith : (0 : Int) ≤ now - DateSel.minDateMs)] at h2
    have hqI : ((v * DateSel.totalDays now / 1000 : Nat) : Int) * DateSel.dayMs
        ≤ ((DateSel.totalDays now : Nat) : Int) * DateSel.dayMs := by
      apply mul_le_mul_of_nonneg_right
      · exact_mod_cast hq
      · decide
    have hTI : ((DateSel.totalDays now : Nat) : Int) * DateSel.dayMs
        ≤ now - DateSel.minDateMs := by
      have h3 : ((DateSel.totalDays now : Nat) : Int) * (86400000 : Int)
          ≤ now - DateSel.minDateMs := by exact_mod_cast h1
      exact h3
    unfold DateSel.sliderToDate
    linarith

/-- Witness for C3 amended at a concrete today, date and slider value. -/
theorem C3_setDate_witness :
    DateSel.handleDateChange DateSel.minDateMs = DateSel.minDateMs ∧
    DateSel.inRange DateSel.nowEx (DateSel.sliderToDate DateSel.nowEx 500) :=
  ⟨(C3_setDate_identity_and_slider_range DateSel.nowEx DateSel.minDateMs 500
      (by decide) (by decide)).1,
   (C3_setDate_identity_and_slider_range DateSel.nowEx DateSel.minDateMs 500
      (by decide) (by decide)).2.2⟩

namespace Panels

/-- Weather panel component state (WeatherPanel.jsx lines 32-34). -/
structure WeatherState (T : Type) where
  weather : Option T
  loading : Bool
  error : Option String
deriving Repr, DecidableEq

/-- WeatherPanel.jsx loadWeather (lines 44-55): the sequence of states
after each successive setState call, in order. The argument r is the
resolution or rejection of the fetchWeather call. -/
def loadWeatherTrace {T : Type} (s : WeatherState T) (r : Except String T) :
    List (WeatherState T) :=
  let s1 : WeatherState T := { s with loading := true }
  match r with
  | .ok d =>
      let s2 := { s1 with weather := some d }
      let s3 := { s2 with error := none }
      let s4 := { s3 with loading := false }
      [s1, s2, s3, s4]
  | .error e =>
      let s2 := { s1 with error := some e }
      let s3 := { s2 with loading := false }
      [s1, s2, s3]

/-- Final state after loadWeather. -/
def loadWeather {T : Type} (s : WeatherState T) (r : Except String T) :
    WeatherState T :=
  (loadWeatherTrace s r).getLastD s

/-- Flood panel component state (FloodPanel.jsx lines 34-37). -/
structure FloodState (S L : Type) where
  summary : Option S
  levels : List L
  loading : Bool
  error : Option String
deriving Repr, DecidableEq

/-- FloodPanel.jsx loadFloodData (lines 48-63): when both fetches
resolve, setSummary, then setLevels with the readings field defaulted to
the empty list, then setError null; on rejection only setError; in both
cases finally setLoading false. -/
def loadFloodDataTrace {S L : Type} (s : FloodState S L)
    (r : Except String (S × Option (List L))) : List (FloodState S L) :=
  let s1 : FloodState S L := { s with loading := true }
  match r with
  | .ok (sum, readings) =>
      let s2 := { s1 with summary := some sum }
      let s3 := { s2 with levels := readings.getD [] }
      let s4 := { s3 with error := none }
      let s5 := { s4 with loading := false }
      [s1, s2, s3, s4, s5]
  | .error e =>
      let s2 := { s1 with error := some e }
      let s3 := { s2 with loading := false }
      [s1, s2, s3]

/-- Final state after loadFloodData. -/
def loadFloodData {S L : Type} (s : FloodState S L)
    (r : Except String (S × Option (List L))) : FloodState S L :=
  (loadFloodDataTrace s r).getLastD s

/-- Relief directory page state relevant to the poller
(ReliefDirectoryPage.jsx lines 105-113): the error slot is a string and
the empty string means no error. -/
structure ReliefState (D : Type) where
  directory : Option D
  lastUpdated : Option Int
  loading : Bool
  isRefreshing : Bool
  error : String
deriving Repr, DecidableEq

/-- ReliefDirectoryPage.jsx fetchDirectory (lines 116-132): the refresh
flag selects the isRefreshing indicator over loading; on resolution the
directory payload (with its last_updated stamp) replaces the data and
the error is cleared; on rejection a fixed message is set and the data
is untouched; finally both indicators are reset. -/
def fetchDirectoryTrace {D : Type} (s : ReliefState D) (refresh : Bool)
    (r : Except String (D × Int)) : List (ReliefState D) :=
  let s1 : ReliefState D :=
    if refresh then { s with isRefreshing := true }
    else { s with loading := true }
  match r with
  | .ok (data, upd) =>
      let s2 := { s1 with directory := some data }
      let s3 := { s2 with lastUpdated := some upd }
      let s4 := { s3 with error := "" }
      let s5 := { s4 with loading := false }
      let s6 := { s5 with isRefreshing := false }
      [s1, s2, s3, s4, s5, s6]
  | .error _ =>
      let s2 := { s1 with
        error := "Failed to load relief directory. Please try again later." }
      let s3 := { s2 with loading := false }
      let s4 := { s3 with isRefreshing := false }
      [s1, s2, s3, s4]

/-- Final state after fetchDirectory. -/
def fetchDirectory {D : Type} (s : ReliefState D) (refresh : Bool)
    (r : Except String (D × Int)) : ReliefState D :=
  (fetchDirectoryTrace s refresh r).getLastD s

end Panels

/-- C4: for each of the three panels, a failed refresh leaves the held
data unchanged and sets the error; a successful refresh from an error
state clears the error and installs the new data, and no state in the
setState sequence shows no error while still holding anything but the
new data. -/
theorem C4_panel_refresh_error_policy
    {T S L D : Type} (sw : Panels.WeatherState T)
    (sf : Panels.FloodState S L) (sr : Panels.ReliefState D)
    (e ew ef : String) (d : T) (sum : S) (readings : Option (List L))
    (dd : D) (upd : Int) (refresh : Bool) :
    ((Panels.loadWeather sw (.error e)).weather = sw.weather ∧
      (Panels.loadWeather sw (.error e)).error = some e) ∧
    (sw.error = some ew →
      (∀ t ∈ Panels.loadWeatherTrace sw (.ok d),
        t.error = none → t.weather = some d) ∧
      (Panels.loadWeather sw (.ok d)).error = none ∧
      (Panels.loadWeather sw (.ok d)).weather = some d) ∧
    ((Panels.loadFloodData sf (.error e)).summary = sf.summary ∧
      (Panels.loadFloodData sf (.error e)).levels = sf.levels ∧
      (Panels.loadFloodData sf (.error e)).error = some e) ∧
    (sf.error = some ef →
      (∀ t ∈ Panels.loadFloodDataTrace sf (.ok (sum, readings)),
        t.error = none →
          t.summary = some sum ∧ t.levels = readings.getD []) ∧
      (Panels.loadFloodData sf (.ok (sum, readings))).error = none ∧
      (Panels.loadFloodData sf (.ok (sum, readings))).summary = some sum) ∧
    ((Panels.fetchDirectory sr refresh (.error e)).directory
        = sr.directory ∧
      (Panels.fetchDirectory sr refresh (.error e)).error
        = "Failed to load relief directory. Please try again later.") ∧
    (sr.error ≠ "" →
      (∀ t ∈ Panels.fetchDirectoryTrace sr refresh (.ok (dd, upd)),
        t.error = "" → t.directory = some dd) ∧
      (Panels.fetchDirectory sr refresh (.ok (dd, upd))).error = "" ∧
      (Panels.fetchDirectory sr refresh (.ok (dd, upd))).directory
        = some dd) := by
  refine ⟨⟨rfl, rfl⟩, ?_, ⟨rfl, rfl, rfl⟩, ?_, ?_, ?_⟩
  · intro hw
    refine ⟨?_, rfl, rfl⟩
    intro t ht herr
    simp [Panels.loadWeatherTrace] at ht
    rcases ht with rfl | rfl | rfl | rfl <;> simp_all
  · intro hf
    refine ⟨?_, rfl, rfl⟩
    intro t ht herr
    simp [Panels.loadFloodDataTrace] at ht
    rcases ht with rfl | rfl | rfl | rfl | rfl <;> simp_all
  · cases refresh <;> exact ⟨rfl, rfl⟩
  · intro hr
    refine ⟨?_, ?_, ?_⟩
    · intro t ht herr
      cases refresh <;> simp [Panels.fetchDirectoryTrace] at ht <;>
        rcases ht with rfl | rfl | rfl | rfl | rfl | rfl <;> simp_all
    · cases refresh <;> rfl
    · cases refresh <;> rfl

/-- Witness for C4 at concrete panel states: a weather panel holding
stale data whose refresh fails, then succeeds from the error state. -/
theorem C4_panel_refresh_witness :
    (Panels.loadWeather
        (⟨some 1, false, none⟩ : Panels.WeatherState Nat)
        (.error "down")).weather = some 1 ∧
    (Panels.loadWeather
        (⟨some 1, false, some "down"⟩ : Panels.WeatherState Nat)
        (.ok 2)).error = none ∧
    (Panels.loadWeather
        (⟨some 1, false, some "down"⟩ : Panels.WeatherState Nat)
        (.ok 2)).weather = some 2 :=
  ⟨(C4_panel_refresh_error_policy
      (⟨some 1, false, none⟩ : Panels.WeatherState Nat)
      (⟨none, [], false, none⟩ : Panels.FloodState Nat Nat)
      (⟨none, none, false, false, "x"⟩ : Panels.ReliefState Nat)
      "down" "down" "down" 2 0 none 0 0 false).1.1,
   (C4_panel_refresh_error_policy
      (⟨some 1, false, some "down"⟩ : Panels.WeatherState Nat)
      (⟨none, [], false, none⟩ : Panels.FloodState Nat Nat)
      (⟨none, none, false, false, "x"⟩ : Panels.ReliefState Nat)
      "down" "down" "down" 2 0 none 0 0 false).2.1 rfl |>.2.1,
   (C4_panel_refresh_error_policy
      (⟨some 1, false, some "down"⟩ : Panels.WeatherState Nat)
      (⟨none, [], false, none⟩ : Panels.FloodState Nat Nat)
      (⟨none, none, false, false, "x"⟩ : Panels.ReliefState Nat)
      "down" "down" "down" 2 0 none 0 0 false).2.1 rfl |>.2.2⟩

namespace Api

/-- Decimal digit character of n mod 10. -/
def digitChar (n : Nat) : Char := Char.ofNat (48 + n % 10)

/-- The date part of Date.prototype.toISOString for a UTC calendar date
(y, m, d) with y at most 9999: four year digits, two month digits and
two day digits, dash separated; exactly what splitting the ISO string at
the T keeps (api.js line 46). -/
def toISODateString (y m d : Nat) : String :=
  String.mk [digitChar (y / 1000), digitChar (y / 100), digitChar (y / 10),
    digitChar y, '-', digitChar (m / 10), digitChar m, '-',
    digitChar (d / 10), digitChar d]

/-- The date argument of getTileUrl: a JS Date object, represented by
its UTC calendar fields, or an already formatted string (api.js lines
45-47 branch on date instanceof Date). -/
inductive DateInput where
  | obj (y m d : Nat)
  | str (s : String)

/-- Backend base URL default (api.js line 6). -/
def API_BASE_URL : String := "http://localhost:8000"

/-- api.js getTileUrl (lines 44-49): a pure function of layer and date
yielding the template tile URL, with the z, x and y placeholders left
for the mapping library to expand per tile. -/
def getTileUrl (layer : String) (date : DateInput) : String :=
  let dateStr := match date with
    | .obj y m d => toISODateString y m d
    | .str s => s
  API_BASE_URL ++ "/tile?layer=" ++ layer ++ "&date=" ++ dateStr ++
    "&z=\x7bz\x7d&x=\x7bx\x7d&y=\x7by\x7d"

/-- Recognizer of the YYYY-MM-DD shape: ten characters, all digits
except dashes at positions 4 and 7. -/
def isYYYYMMDD (s : String) : Bool :=
  match s.toList with
  | [a, b, c, d, h1, e, f, h2, g, k] =>
      a.isDigit && b.isDigit && c.isDigit && d.isDigit && h1 == '-' &&
      e.isDigit && f.isDigit && h2 == '-' && g.isDigit && k.isDigit
  | _ => false

/-- Every digit character is a digit. -/
theorem digitChar_isDigit (n : Nat) : (digitChar n).isDigit = true := by
  unfold digitChar
  have h : n % 10 < 10 := Nat.mod_lt _ (by norm_num)
  set k := n % 10 with hk
  interval_cases k <;> decide

/-- The ISO date string always matches the YYYY-MM-DD shape. -/
theorem toISODateString_shape (y m d : Nat) :
    isYYYYMMDD (toISODateString y m d) = true := by
  simp [isYYYYMMDD, toISODateString, digitChar_isDigit]

end Api

/-- C5: getTileUrl is a pure function whose result carries the date,
normalized to YYYY-MM-DD, in the date query parameter: a Date object is
formatted by the ISO conversion, an already formatted string is kept as
is, and the z, x and y tile placeholders appear verbatim in the result. -/
theorem C5_getTileUrl_normalized_date
    (layer : String) (y m d : Nat) (s : String)
    (_hy : y ≤ 9999) (hs : Api.isYYYYMMDD s = true) :
    (Api.getTileUrl layer (.obj y m d)
        = Api.API_BASE_URL ++ "/tile?layer=" ++ layer ++ "&date="
          ++ Api.toISODateString y m d
          ++ "&z=\x7bz\x7d&x=\x7bx\x7d&y=\x7by\x7d" ∧
      Api.isYYYYMMDD (Api.toISODateString y m d) = true) ∧
    (Api.getTileUrl layer (.str s)
        = Api.API_BASE_URL ++ "/tile?layer=" ++ layer ++ "&date=" ++ s
          ++ "&z=\x7bz\x7d&x=\x7bx\x7d&y=\x7by\x7d" ∧
      Api.isYYYYMMDD s = true) ∧
    (∃ a b : String, Api.getTileUrl layer (.obj y m d)
        = a ++ "\x7bz\x7d" ++ b) ∧
    (∃ a b : String, Api.getTileUrl layer (.obj y m d)
        = a ++ "\x7bx\x7d" ++ b) ∧
    (∃ a b : String, Api.getTileUrl layer (.obj y m d)
        = a ++ "\x7by\x7d" ++ b) := by
  have base : ∀ dstr : String,
      Api.API_BASE_URL ++ "/tile?layer=" ++ layer ++ "&date=" ++ dstr ++
        "&z=\x7bz\x7d&x=\x7bx\x7d&y=\x7by\x7d"
      = (Api.API_BASE_URL ++ "/tile?layer=" ++ layer ++ "&date=" ++ dstr) ++
        "&z=\x7bz\x7d&x=\x7bx\x7d&y=\x7by\x7d" := fun _ => rfl
  refine ⟨⟨rfl, Api.toISODateString_shape y m d⟩, ⟨rfl, hs⟩, ?_, ?_, ?_⟩
  · refine ⟨Api.API_BASE_URL ++ "/tile?layer=" ++ layer ++ "&date="
      ++ Api.toISODateString y m d ++ "&z=",
      "&x=\x7bx\x7d&y=\x7by\x7d", ?_⟩
    show (Api.API_BASE_URL ++ "/tile?layer=" ++ layer ++ "&date="
        ++ Api.toISODateString y m d) ++ "&z=\x7bz\x7d&x=\x7bx\x7d&y=\x7by\x7d"
      = _
    rw [show ("&z=\x7bz\x7d&x=\x7bx\x7d&y=\x7by\x7d" : String)
        = "&z=" ++ ("\x7bz\x7d" ++ "&x=\x7bx\x7d&y=\x7by\x7d") from rfl]
    rw [← String.append_assoc, ← String.append_assoc]
  · refine ⟨Api.API_BASE_URL ++ "/tile?layer=" ++ layer ++ "&date="
      ++ Api.toISODateString y m d ++ "&z=\x7bz\x7d&x=",
      "&y=\x7by\x7d", ?_⟩
    show (Api.API_BASE_URL ++ "/tile?layer=" ++ layer ++ "&date="
        ++ Api.toISODateString y m d) ++ "&z=\x7bz\x7d&x=\x7bx\x7d&y=\x7by\x7d"
      = _
    rw [show ("&z=\x7bz\x7d&x=\x7bx\x7d&y=\x7by\x7d" : String)
        = "&z=\x7bz\x7d&x=" ++ ("\x7bx\x7d" ++ "&y=\x7by\x7d") from rfl]
    rw [← String.append_assoc, ← String.append_assoc]
  · refine ⟨Api.API_BASE_URL ++ "/tile?layer=" ++ layer ++ "&date="
      ++ Api.toISODateString y m d ++ "&z=\x7bz\x7d&x=\x7bx\x7d&y=",
      "", ?_⟩
    show (Api.API_BASE_URL ++ "/tile?layer=" ++ layer ++ "&date="
        ++ Api.toISODateString y m d) ++ "&z=\x7bz\x7d&x=\x7bx\x7d&y=\x7by\x7d"
      = _
    rw [show ("&z=\x7bz\x7d&x=\x7bx\x7d&y=\x7by\x7d" : String)
        = "&z=\x7bz\x7d&x=\x7bx\x7d&y=" ++ ("\x7by\x7d" ++ "") from rfl]
    rw [← String.append_assoc, ← String.append_assoc]

/-- Witness for C5 at a concrete Date object and a concrete formatted
string. -/
theorem C5_getTileUrl_witness :
    Api.isYYYYMMDD (Api.toISODateString 2023 12 5) = true ∧
    Api.getTileUrl "S2_TRUE_COLOR" (.str "2023-12-05")
      = Api.API_BASE_URL ++ "/tile?layer=" ++ "S2_TRUE_COLOR" ++ "&date="
        ++ "2023-12-05" ++ "&z=\x7bz\x7d&x=\x7bx\x7d&y=\x7by\x7d" :=
  ⟨(C5_getTileUrl_normalized_date "S2_TRUE_COLOR" 2023 12 5 "2023-12-05"
      (by norm_num) (by decide)).1.2,
   (C5_getTileUrl_normalized_date "S2_TRUE_COLOR" 2023 12 5 "2023-12-05"
      (by norm_num) (by decide)).2.1.1⟩

namespace Relief

/-- Action the search logic takes when its debounce timer fires. -/
inductive SearchAction where
  | issueRequest (q : String)
  | clearResults
deriving Repr, DecidableEq

/-- The JS String.prototype.trim builtin: leading and trailing
whitespace removed. -/
def jsTrim (q : String) : String :=
  String.mk
    (((q.toList.dropWhile Char.isWhitespace).reverse.dropWhile
        Char.isWhitespace).reverse)

/-- ReliefDirectoryPage.jsx handleSearch (lines 149-164): a blank or
shorter-than-two-character query clears the results and returns before
any network call; otherwise the search request is issued. -/
def handleSearch (q : String) : SearchAction :=
  if jsTrim q = "" ∨ q.length < 2 then .clearResults
  else .issueRequest q

/-- ReliefDirectoryPage.jsx debounce effect (lines 167-177): each
keystroke arms a 300 ms timer, cancelling the previous one; when the
timer fires, a query of length at least 2 runs handleSearch and any
shorter query has its results cleared. The result is the delay in ms
from the last keystroke to the action, paired with the action taken. -/
def debounceEffect (q : String) : Nat × SearchAction :=
  (300, if 2 ≤ q.length then handleSearch q else .clearResults)

end Relief

/-- C6 counterexample: for the one-character query a, the results are
cleared only when the 300 ms debounce timer fires, not immediately: the
delay of the clearing action is 300 ms, not 0. -/
theorem C6_counterexample_clear_not_immediate :
    (Relief.debounceEffect "a").2 = Relief.SearchAction.clearResults ∧
    (Relief.debounceEffect "a").1 = 300 ∧
    (Relief.debounceEffect "a").1 ≠ 0 := by
  refine ⟨by decide, rfl, by decide⟩

/-- C6 amended: every query action fires 300 ms after the last
keystroke. A query of length 0 or 1 then clears the results with no
request; a query of length at least 2 with non-blank trim issues the
search request; and a blank query of length at least 2 (whitespace only)
also clears the results with no request. -/
theorem C6_search_debounce_behavior
    (q q1 q2 : String) (h2 : 2 ≤ q.length) (hb : Relief.jsTrim q ≠ "")
    (h1 : q1.length < 2) (hq2 : 2 ≤ q2.length)
    (hbq2 : Relief.jsTrim q2 = "") :
    Relief.debounceEffect q = (300, .issueRequest q) ∧
    Relief.debounceEffect q1 = (300, .clearResults) ∧
    Relief.debounceEffect q2 = (300, .clearResults) := by
  have hnl : ¬ q.length < 2 := Nat.not_lt.mpr h2
  have hn1 : ¬ 2 ≤ q1.length := Nat.not_le.mpr h1
  refine ⟨?_, ?_, ?_⟩
  · simp [Relief.debounceEffect, Relief.handleSearch, h2, hb, hnl]
  · simp [Relief.debounceEffect, hn1]
  · simp [Relief.debounceEffect, Relief.handleSearch, hq2, hbq2]

/-- Witness for C6 amended at concrete queries: a two-letter query, a
one-letter query, and a two-space query. -/
theorem C6_search_debounce_witness :
    Relief.debounceEffect "ab" = (300, .issueRequest "ab") ∧
    Relief.debounceEffect "a" = (300, .clearResults) ∧
    Relief.debounceEffect "  " = (300, .clearResults) :=
  C6_search_debounce_behavior "ab" "a" "  " (by decide) (by decide)
    (by decide) (by decide) (by decide)

namespace Register

/-- Outcome of the submit handler: an inline form error with no network
call, or proceeding to the register network call. -/
inductive SubmitOutcome where
  | reject (msg : String)
  | submit
deriving Repr, DecidableEq

/-- RegisterPage.jsx handleSubmit validation chain (lines 20-47). The JS
falsiness tests on the email and password strings hold exactly for the
empty string. -/
def handleSubmit (email password confirmPassword : String) : SubmitOutcome :=
  if email = "" ∨ password = "" then
    .reject "Email and password are required"
  else if password.length < 6 then
    .reject "Password must be at least 6 characters"
  else if password ≠ confirmPassword then
    .reject "Passwords do not match"
  else .submit

end Register

/-- C9 counterexample: the empty password is shorter than 6 characters,
yet a submission with a nonempty email and an empty password is rejected
with the required-fields message, not the password-length message,
because the required-fields check runs first. -/
theorem C9_counterexample_empty_password :
    ("" : String).length < 6 ∧
    Register.handleSubmit "a@b.com" "" ""
      = .reject "Email and password are required" ∧
    Register.handleSubmit "a@b.com" "" ""
      ≠ .reject "Password must be at least 6 characters" := by
  refine ⟨by decide, by decide, by decide⟩

/-- C9 amended: every submission whose password is shorter than 6
characters is rejected locally, so the register network call is never
reached, and when the email and the password are both nonempty the
inline message is exactly the password-length one. -/
theorem C9_short_password_blocks_submit
    (email password confirmPassword : String)
    (h : password.length < 6) :
    Register.handleSubmit email password confirmPassword
      ≠ Register.SubmitOutcome.submit ∧
    (email ≠ "" → password ≠ "" →
      Register.handleSubmit email password confirmPassword
        = .reject "Password must be at least 6 characters") := by
  unfold Register.handleSubmit
  by_cases he : email = ""
  · simp [he]
  · by_cases hp : password = ""
    · simp [he, hp]
    · simp [he, hp, h]

/-- Witness for C9 amended at the concrete five-character password. -/
theorem C9_short_password_witness :
    Register.handleSubmit "a@b.com" "short" "short"
      ≠ Register.SubmitOutcome.submit ∧
    Register.handleSubmit "a@b.com" "short" "short"
      = .reject "Password must be at least 6 characters" :=
  ⟨(C9_short_password_blocks_submit "a@b.com" "short" "short"
      (by decide)).1,
   (C9_short_password_blocks_submit "a@b.com" "short" "short"
      (by decide)).2 (by decide) (by decide)⟩

/-- A concrete registered user object, used in witnesses. -/
def userReg : User :=
  { id := "u1", email := "a@b.com", display_name := some "A",
    role := "registered" }

/-- A concrete successful auth payload, used in witnesses. -/
def dataEx : AuthSvc.AuthData :=
  { access_token := "tok123", user := userReg }

/-- C2 counterexample: with one subscribed listener, a successful login
persists the session yet delivers no notification to the listener, so
subscribers are not notified of the auth state change. -/
theorem C2_counterexample_login_no_notification :
    (AuthSvc.loginUser { token := none, user := none }
        (AuthSvc.onAuthStateChange [] 7) (.ok dataEx)).delivered = [] ∧
    AuthSvc.onAuthStateChange [] 7 ≠ [] ∧
    (AuthSvc.loginUser { token := none, user := none }
        (AuthSvc.onAuthStateChange [] 7) (.ok dataEx)).storage.token
      = some "tok123" := by
  refine ⟨rfl, by decide, rfl⟩

/-- C2 amended: every successful register, login and guest-login call
persists the token-user pair to storage, but delivers no notification to
any subscribed callback, even though notifyAuthChange would deliver to
every subscriber had the operations invoked it. -/
theorem C2_success_persists_but_never_notifies
    (st : AuthSvc.Storage) (ls : AuthSvc.Listeners)
    (data : AuthSvc.AuthData) (cb : Nat) (h : cb ∈ ls) :
    ((AuthSvc.registerUser st ls (.ok data)).storage
        = AuthSvc.storeAuth data.access_token data.user ∧
      (AuthSvc.registerUser st ls (.ok data)).delivered = []) ∧
    ((AuthSvc.loginUser st ls (.ok data)).storage
        = AuthSvc.storeAuth data.access_token data.user ∧
      (AuthSvc.loginUser st ls (.ok data)).delivered = []) ∧
    ((AuthSvc.guestLogin st ls (.ok data)).storage
        = AuthSvc.storeAuth data.access_token data.user ∧
      (AuthSvc.guestLogin st ls (.ok data)).delivered = []) ∧
    (AuthSvc.storeAuth data.access_token data.user).token
      = some data.access_token ∧
    (AuthSvc.storeAuth data.access_token data.user).user = some data.user ∧
    (cb, some data.user) ∈ AuthSvc.notifyAuthChange ls (some data.user) := by
  refine ⟨⟨rfl, rfl⟩, ⟨rfl, rfl⟩, ⟨rfl, rfl⟩, rfl, rfl, ?_⟩
  simp only [AuthSvc.notifyAuthChange, List.mem_map]
  exact ⟨cb, h, rfl⟩

/-- Witness for C2 amended, at one subscribed listener and a concrete
successful login. -/
theorem C2_success_persists_but_never_notifies_witness :
    (AuthSvc.loginUser ⟨none, none⟩ [7] (.ok dataEx)).delivered = [] ∧
    (7, some dataEx.user) ∈ AuthSvc.notifyAuthChange [7] (some dataEx.user) :=
  ⟨(C2_success_persists_but_never_notifies ⟨none, none⟩ [7] dataEx 7
      (by decide)).2.1.2,
   (C2_success_persists_but_never_notifies ⟨none, none⟩ [7] dataEx 7
      (by decide)).2.2.2.2.2⟩

/-- C10: getUser never throws: for every parse behavior of the external
JSON builtin and every storage content, it returns none when the key is
absent or falsy, none when the stored string fails to parse, the parsed
user when parsing succeeds, and in every case either none or a
successfully parsed user. -/
theorem C10_getUser_total_never_throws
    (parse : String → Except String User) (stored : Option String) :
    (stored = none → AuthSvc.getUser parse stored = none) ∧
    (∀ s e, stored = some s → parse s = .error e →
      AuthSvc.getUser parse stored = none) ∧
    (∀ s u, stored = some s → s ≠ "" → parse s = .ok u →
      AuthSvc.getUser parse stored = some u) ∧
    (AuthSvc.getUser parse stored = none ∨
      ∃ s u, stored = some s ∧ parse s = .ok u ∧
        AuthSvc.getUser parse stored = some u) := by
  rcases stored with _ | s
  · simp [AuthSvc.getUser]
  · by_cases hs : s = ""
    · subst hs
      have hg : AuthSvc.getUser parse (some "") = none := by
        simp [AuthSvc.getUser]
      refine ⟨fun _ => hg, fun _ _ _ _ => hg, ?_, Or.inl hg⟩
      intro s2 u2 hs2 hne _
      injection hs2 with h
      exact absurd h.symm hne
    · cases hp : parse s with
      | ok u =>
          refine ⟨(by intro h; cases h), ?_, ?_, ?_⟩
          · intro s2 e hs2 he
            obtain rfl : s = s2 := by injection hs2
            rw [hp] at he; cases he
          · intro s2 u2 hs2 _ hu2
            obtain rfl : s = s2 := by injection hs2
            rw [hp] at hu2
            obtain rfl : u = u2 := by injection hu2
            simp [AuthSvc.getUser, hs, hp]
          · exact Or.inr ⟨s, u, rfl, hp, by simp [AuthSvc.getUser, hs, hp]⟩
      | error e =>
          refine ⟨(by intro h; cases h), ?_, ?_, ?_⟩
          · intro s2 e2 hs2 _
            obtain rfl : s = s2 := by injection hs2
            simp [AuthSvc.getUser, hs, hp]
          · intro s2 u2 hs2 _ hu2
            obtain rfl : s = s2 := by injection hs2
            rw [hp] at hu2; cases hu2
          · exact Or.inl (by simp [AuthSvc.getUser, hs, hp])

/-- Witness for C10 at a stored string that is not valid JSON, with a
parse behavior that rejects it. -/
theorem C10_getUser_witness :
    AuthSvc.getUser (fun _ => Except.error "SyntaxError") (some "not json")
      = none :=
  (C10_getUser_total_never_throws (fun _ => Except.error "SyntaxError")
      (some "not json")).2.1 "not json" "SyntaxError" rfl rfl

/-- C7: a 401 on session validation clears the stored session and
surfaces Session expired; among all server-consulting auth calls made
from a stored session, the 401 on /auth/me is the only one that leaves
no token behind (forced logout); and getCurrentUser treats any two
nonempty tokens identically, so no token content such as an expiry is
inspected client-side. -/
theorem C7_session_expiry_forced_logout
    (st : AuthSvc.Storage) (hst : AuthSvc.truthy st.token = true)
    (d : Option String) (c : AuthSvc.ServerCall) (t1 t2 : String)
    (h1 : t1 ≠ "") (h2 : t2 ≠ "") (u : Option User) (r : AuthSvc.MeResp) :
    AuthSvc.getCurrentUser st (.err 401 d)
      = (AuthSvc.clearAuth, .error "Session expired") ∧
    ((AuthSvc.serverStep st c).token = none ↔
      ∃ d2, c = .me (.err 401 d2)) ∧
    (AuthSvc.getCurrentUser ⟨some t1, u⟩ r).2
      = (AuthSvc.getCurrentUser ⟨some t2, u⟩ r).2 := by
  have htok : ∃ t, st.token = some t ∧ t ≠ "" := by
    rcases h : st.token with _ | t
    · rw [h] at hst; simp [AuthSvc.truthy] at hst
    · rw [h] at hst; simp [AuthSvc.truthy] at hst
      exact ⟨t, rfl, hst⟩
  refine ⟨?_, ?_, ?_⟩
  · simp [AuthSvc.getCurrentUser, hst]
  · obtain ⟨t, ht, htne⟩ := htok
    cases c with
    | register r2 =>
        cases r2 <;>
          simp [AuthSvc.serverStep, AuthSvc.registerUser, AuthSvc.storeAuth, ht]
    | login r2 =>
        cases r2 <;>
          simp [AuthSvc.serverStep, AuthSvc.loginUser, AuthSvc.storeAuth, ht]
    | guest r2 =>
        cases r2 <;>
          simp [AuthSvc.serverStep, AuthSvc.guestLogin, AuthSvc.storeAuth, ht]
    | me r2 =>
        cases r2 with
        | ok u2 =>
            simp [AuthSvc.serverStep, AuthSvc.getCurrentUser, hst, ht,
              AuthSvc.truthy, htne]
        | err status d2 =>
            by_cases h401 : status = 401
            · subst h401
              simp [AuthSvc.serverStep, AuthSvc.getCurrentUser, hst,
                AuthSvc.clearAuth]
            · simp [AuthSvc.serverStep, AuthSvc.getCurrentUser, hst, ht,
                AuthSvc.truthy, htne, h401]
  · cases r with
    | ok u2 => simp [AuthSvc.getCurrentUser, AuthSvc.truthy, h1, h2]
    | err status d2 =>
        by_cases h401 : status = 401 <;>
          simp [AuthSvc.getCurrentUser, AuthSvc.truthy, h1, h2, h401]

/-- Witness for C7 at a concrete stored session and a concrete 401
response from /auth/me. -/
theorem C7_session_expiry_witness :
    AuthSvc.getCurrentUser ⟨some "tok", some userReg⟩ (.err 401 none)
      = (AuthSvc.clearAuth, .error "Session expired") ∧
    ((AuthSvc.serverStep ⟨some "tok", some userReg⟩
        (.me (.err 401 none))).token = none ↔
      ∃ d2, AuthSvc.ServerCall.me (.err 401 none) = .me (.err 401 d2)) :=
  ⟨(C7_session_expiry_forced_logout ⟨some "tok", some userReg⟩ (by decide)
      none (.me (.err 401 none)) "a" "b" (by decide) (by decide) none
      (.ok userReg)).1,
   (C7_session_expiry_forced_logout ⟨some "tok", some userReg⟩ (by decide)
      none (.me (.err 401 none)) "a" "b" (by decide) (by decide) none
      (.ok userReg)).2.1⟩

end LankaSat
